import Mathlib

/-!
Verification of the invoice-scanner service core: the session store
(`app/core/session_manager.py`) and the analysis workflow
(`app/core/rag_pipeline.py`), with the `analyze` endpoint glue
(`app/routers/analyze.py`).

Modelling conventions:
* wall-clock instants (Python `time.time()` floats) are rationals;
* the Python `dict` backing the session store is an association list with
  first-match lookup, in-place overwrite on assignment, and filtering on
  deletion — observationally the behaviour of a `dict` keyed by strings;
* the `uuid.uuid4()` token drawn inside `create_session` comes from OS
  randomness, so it is passed in as an explicit parameter;
* `get_session` reads the clock twice (once for the expiry check, once for
  the refresh), hence the two time parameters `t1`, `t2`.
-/

namespace InvoiceScanner

/-- Mirrors the `SessionData` dataclass: id, vector store, agent and the two
timestamps.  The vector store and agent payloads are opaque type parameters. -/
structure SessionData (V A : Type) where
  session_id : String
  vector_store : V
  agent : A
  created_at : ℚ
  last_accessed : ℚ
deriving DecidableEq

/-- Mirrors the `SessionManager` state: the `_sessions` dict and the timeout.
The lock is not modelled; every operation below is one critical section. -/
structure SessionManager (V A : Type) where
  sessions : List (String × SessionData V A)
  session_timeout : ℚ

/-- Python `dict` lookup `d.get(k)`: first (unique) matching key. -/
def dictGet {β : Type} : List (String × β) → String → Option β
  | [], _ => none
  | p :: l, k => if p.1 = k then some p.2 else dictGet l k

/-- Python `dict` assignment `d[k] = v`: overwrite in place, else append. -/
def dictSet {β : Type} : List (String × β) → String → β → List (String × β)
  | [], k, v => [(k, v)]
  | p :: l, k, v => if p.1 = k then (k, v) :: l else p :: dictSet l k v

/-- Python `del d[k]`. -/
def dictDel {β : Type} (l : List (String × β)) (k : String) : List (String × β) :=
  l.filter (fun p => p.1 ≠ k)

variable {V A : Type}

/-- `SessionManager._cleanup_expired_sessions`, at clock reading `now`:
delete every entry with `now - last_accessed > session_timeout`. -/
def cleanup_expired_sessions (m : SessionManager V A) (now : ℚ) : SessionManager V A :=
  { m with sessions :=
      m.sessions.filter (fun p => ¬ (now - p.2.last_accessed > m.session_timeout)) }

/-- `SessionManager.create_session`: store a fresh session stamped `now` for
both timestamps, then sweep expired entries; return the generated id.  The
uuid4 token `sid` is an input (OS randomness). -/
def create_session (m : SessionManager V A) (sid : String) (vs : V) (ag : A)
    (now : ℚ) : String × SessionManager V A :=
  let sd : SessionData V A :=
    { session_id := sid, vector_store := vs, agent := ag,
      created_at := now, last_accessed := now }
  let m1 : SessionManager V A := { m with sessions := dictSet m.sessions sid sd }
  (sid, cleanup_expired_sessions m1 now)

/-- `SessionManager.get_session`: absent ⇒ `none`; expired (strictly past the
timeout at clock reading `t1`) ⇒ delete and `none`; otherwise refresh
`last_accessed` to the second clock reading `t2` and return the entry. -/
def get_session (m : SessionManager V A) (sid : String) (t1 t2 : ℚ) :
    Option (SessionData V A) × SessionManager V A :=
  match dictGet m.sessions sid with
  | none => (none, m)
  | some sd =>
    if t1 - sd.last_accessed > m.session_timeout then
      (none, { m with sessions := dictDel m.sessions sid })
    else
      let sd2 := { sd with last_accessed := t2 }
      (some sd2, { m with sessions := dictSet m.sessions sid sd2 })

/-! ### Association-list lemmas -/

theorem dictGet_dictSet_self {β : Type} (l : List (String × β)) (k : String) (v : β) :
    dictGet (dictSet l k v) k = some v := by
  induction l with
  | nil => simp [dictGet, dictSet]
  | cons p l ih =>
    by_cases h : p.1 = k
    · simp [dictSet, h, dictGet]
    · simp [dictSet, h, dictGet, ih]

theorem dictGet_dictDel_self {β : Type} (l : List (String × β)) (k : String) :
    dictGet (dictDel l k) k = none := by
  induction l with
  | nil => simp [dictDel, dictGet]
  | cons p l ih =>
    by_cases h : p.1 = k
    · simpa [dictDel, h] using ih
    · simpa [dictDel, h, dictGet] using ih

/-- First match in a filtered list, provided the kept predicate holds on the
value that `dictSet` just wrote. -/
theorem dictGet_filter_dictSet {β : Type} (l : List (String × β)) (k : String)
    (v : β) (q : String × β → Bool) (hq : q (k, v) = true) :
    dictGet ((dictSet l k v).filter q) k = some v := by
  induction l with
  | nil => simp [dictSet, dictGet, hq]
  | cons p l ih =>
    by_cases h : p.1 = k
    · simp [dictSet, h, hq, dictGet]
    · cases hqp : q p with
      | true => simpa [dictSet, h, hqp, dictGet] using ih
      | false => simpa [dictSet, h, hqp, dictGet] using ih

theorem mem_dictSet_of_ne {β : Type} {l : List (String × β)} {p : String × β}
    (hp : p ∈ l) (k : String) (v : β) (hne : p.1 ≠ k) : p ∈ dictSet l k v := by
  induction l with
  | nil => cases hp
  | cons q l ih =>
    by_cases h : q.1 = k
    · rcases List.mem_cons.mp hp with rfl | hmem
      · exact absurd h hne
      · simp [dictSet, h, hmem]
    · rcases List.mem_cons.mp hp with rfl | hmem
      · simp [dictSet, h]
      · simp [dictSet, h, ih hmem]

/-! ### Claims about the session store -/

/-- C1.  `get_session` returns a value only when the idle time at the check
instant is within the timeout, and the returned (and stored) entry carries
`last_accessed` refreshed to the second clock reading; when the entry is
absent or strictly expired, it returns `none` and the entry is gone from the
resulting store. -/
theorem get_session_ttl_contract (m : SessionManager V A) (sid : String)
    (t1 t2 : ℚ) :
    (∀ sd, (get_session m sid t1 t2).1 = some sd →
      ∃ sd0, dictGet m.sessions sid = some sd0 ∧
        t1 - sd0.last_accessed ≤ m.session_timeout ∧
        sd.last_accessed = t2 ∧
        dictGet (get_session m sid t1 t2).2.sessions sid = some sd) ∧
    ((∀ sd0, dictGet m.sessions sid = some sd0 →
        t1 - sd0.last_accessed > m.session_timeout) →
      (get_session m sid t1 t2).1 = none ∧
      dictGet (get_session m sid t1 t2).2.sessions sid = none) := by
  constructor
  · intro sd hsd
    cases hget : dictGet m.sessions sid with
    | none => simp [get_session, hget] at hsd
    | some sd0 =>
      by_cases hexp : t1 - sd0.last_accessed > m.session_timeout
      · simp [get_session, hget, hexp] at hsd
      · simp only [get_session, hget, if_neg hexp, Option.some.injEq] at hsd
        refine ⟨sd0, rfl, not_lt.mp hexp, ?_, ?_⟩
        · rw [← hsd]
        · rw [← hsd]
          simp only [get_session, hget, if_neg hexp]
          exact dictGet_dictSet_self m.sessions sid _
  · intro hall
    cases hget : dictGet m.sessions sid with
    | none => constructor <;> simp [get_session, hget]
    | some sd0 =>
      have hexp := hall sd0 hget
      constructor
      · simp [get_session, hget, hexp]
      · simp [get_session, hget, hexp, dictGet, dictGet_dictDel_self]

/-- One-session store used to instantiate the session-store contracts. -/
def sdU (t : ℚ) : SessionData Unit Unit :=
  { session_id := "s", vector_store := (), agent := (),
    created_at := 0, last_accessed := t }

/-- Session manager over `Unit` payloads, for concrete instantiations. -/
def mgrU (l : List (String × SessionData Unit Unit)) (T : ℚ) :
    SessionManager Unit Unit :=
  { sessions := l, session_timeout := T }

/-- Concrete instantiation of the C1 contract on a one-session store. -/
theorem get_session_ttl_contract_witness :
    ∃ sd0, dictGet (mgrU [("s", sdU 0)] 10).sessions "s" = some sd0 ∧
      (3 : ℚ) - sd0.last_accessed ≤ (mgrU [("s", sdU 0)] 10).session_timeout ∧
      (sdU 5).last_accessed = 5 ∧
      dictGet (get_session (mgrU [("s", sdU 0)] 10) "s" 3 5).2.sessions "s" =
        some (sdU 5) :=
  (get_session_ttl_contract (mgrU [("s", sdU 0)] 10) "s" 3 5).1 (sdU 5)
    (by norm_num [get_session, mgrU, sdU, dictGet])

/-- C10.  At the exact boundary `now − last_accessed = timeout`, `get_session`
still returns the session with `last_accessed` refreshed, and the cleanup
sweep keeps any entry whose idle time equals the timeout exactly: expiry
requires strictly exceeding the timeout in both places. -/
theorem get_session_boundary (m : SessionManager V A) (sid : String)
    (sd0 : SessionData V A) (t2 : ℚ)
    (h : dictGet m.sessions sid = some sd0) :
    (get_session m sid (sd0.last_accessed + m.session_timeout) t2).1 =
      some { sd0 with last_accessed := t2 } ∧
    ∀ p ∈ m.sessions,
      p ∈ (cleanup_expired_sessions m
            (p.2.last_accessed + m.session_timeout)).sessions := by
  constructor
  · have hnot : ¬ (sd0.last_accessed + m.session_timeout - sd0.last_accessed >
        m.session_timeout) := by
      simp
    simp [get_session, h, hnot]
  · intro p hp
    simp only [cleanup_expired_sessions, List.mem_filter]
    refine ⟨hp, ?_⟩
    simp only [decide_eq_true_eq, gt_iff_lt, not_lt]
    linarith

/-- Concrete boundary instance: idle time exactly the timeout is not expiry. -/
theorem get_session_boundary_witness :
    (get_session (mgrU [("s", sdU 0)] 10) "s"
        ((sdU 0).last_accessed + (mgrU [("s", sdU 0)] 10).session_timeout) 7).1 =
      some { sdU 0 with last_accessed := (7 : ℚ) } ∧
    ("s", sdU 0) ∈ (cleanup_expired_sessions (mgrU [("s", sdU 0)] 10)
        ((sdU 0).last_accessed + (mgrU [("s", sdU 0)] 10).session_timeout)).sessions := by
  have h := get_session_boundary (mgrU [("s", sdU 0)] 10) "s" (sdU 0) 7
    (by simp [mgrU, sdU, dictGet])
  exact ⟨h.1, h.2 ("s", sdU 0) (by simp [mgrU])⟩

/-- C6.  A session created at `t0` with timeout `T` and never touched again is
gone for any lookup at `t0 + T + ε` and still present for any lookup at
`t0 + T − ε`, for every `ε > 0`. -/
theorem session_expiration_determinism (m : SessionManager V A) (sid : String)
    (vs : V) (ag : A) (t0 ε t2 t2' : ℚ) (hT : 0 ≤ m.session_timeout)
    (hε : 0 < ε) :
    (get_session (create_session m sid vs ag t0).2 sid
        (t0 + m.session_timeout + ε) t2).1 = none ∧
    ((get_session (create_session m sid vs ag t0).2 sid
        (t0 + m.session_timeout - ε) t2').1).isSome := by
  have hTeq : (create_session m sid vs ag t0).2.session_timeout =
      m.session_timeout := rfl
  have hget : dictGet (create_session m sid vs ag t0).2.sessions sid =
      some { session_id := sid, vector_store := vs, agent := ag,
             created_at := t0, last_accessed := t0 } := by
    simp only [create_session, cleanup_expired_sessions]
    exact dictGet_filter_dictSet _ _ _ _ (by simp [hT, not_lt])
  constructor
  · have h1 : t0 + m.session_timeout + ε - t0 > m.session_timeout := by linarith
    simp [get_session, hget, hTeq, h1]
  · have h2 : ¬ (t0 + m.session_timeout - ε - t0 > m.session_timeout) := by
      simp only [gt_iff_lt, not_lt]
      linarith
    simp [get_session, hget, hTeq, h2]

/-- Concrete expiration-determinism instance (`T = 10`, `ε = 1`). -/
theorem session_expiration_determinism_witness :
    (get_session (create_session (mgrU [] 10) "s" () () 0).2 "s"
        ((0 : ℚ) + (mgrU [] 10).session_timeout + 1) 2).1 = none ∧
    ((get_session (create_session (mgrU [] 10) "s" () () 0).2 "s"
        ((0 : ℚ) + (mgrU [] 10).session_timeout - 1) 2).1).isSome :=
  session_expiration_determinism (mgrU [] 10) "s" () () 0 1 2 2
    (by norm_num [mgrU]) (by norm_num)

/-- Two-session store with one long-expired entry, for the create contract. -/
def mEx : SessionManager Unit Unit :=
  mgrU [("old", sdU (-100)), ("keep", sdU 0)] 10

/-- C7.  `create_session` stores the new session with both timestamps at
`now`, sweeps exactly the entries whose idle time strictly exceeds the
timeout (never the fresh one, never an unexpired one), and returns the
generated identifier — which is distinct from every stored identifier
whenever the drawn token is fresh. -/
theorem create_session_contract (m : SessionManager V A) (sid : String)
    (vs : V) (ag : A) (now : ℚ) (hT : 0 ≤ m.session_timeout) :
    (create_session m sid vs ag now).1 = sid ∧
    dictGet (create_session m sid vs ag now).2.sessions sid =
      some { session_id := sid, vector_store := vs, agent := ag,
             created_at := now, last_accessed := now } ∧
    (∀ p ∈ (create_session m sid vs ag now).2.sessions,
      now - p.2.last_accessed ≤ m.session_timeout) ∧
    (∀ p ∈ m.sessions, p.1 ≠ sid →
      now - p.2.last_accessed ≤ m.session_timeout →
      p ∈ (create_session m sid vs ag now).2.sessions) ∧
    ((∀ p ∈ m.sessions, p.1 ≠ sid) →
      ∀ p ∈ m.sessions, (create_session m sid vs ag now).1 ≠ p.1) := by
  refine ⟨rfl, ?_, ?_, ?_, ?_⟩
  · simp only [create_session, cleanup_expired_sessions]
    exact dictGet_filter_dictSet _ _ _ _ (by simp [hT, not_lt])
  · intro p hp
    simp only [create_session, cleanup_expired_sessions,
      List.mem_filter] at hp
    have := hp.2
    simpa [not_lt] using this
  · intro p hp hne hle
    simp only [create_session, cleanup_expired_sessions, List.mem_filter]
    exact ⟨mem_dictSet_of_ne hp sid _ hne, by simp [not_lt, hle]⟩
  · intro hfresh p hp hcontra
    exact hfresh p hp (Eq.symm hcontra)

/-- Concrete create contract instance: the fresh session is stored, the
long-expired entry is swept, the live entry survives, and the new id differs
from the surviving keys. -/
theorem create_session_contract_witness :
    (create_session mEx "sid-new" () () 5).1 = "sid-new" ∧
    dictGet (create_session mEx "sid-new" () () 5).2.sessions "sid-new" =
      some { session_id := "sid-new", vector_store := (), agent := (),
             created_at := 5, last_accessed := 5 } ∧
    ("keep", sdU 0) ∈ (create_session mEx "sid-new" () () 5).2.sessions ∧
    (create_session mEx "sid-new" () () 5).1 ≠ "keep" := by
  have h := create_session_contract mEx "sid-new" () () 5
    (by norm_num [mEx, mgrU])
  refine ⟨h.1, h.2.1, ?_, ?_⟩
  · exact h.2.2.2.1 ("keep", sdU 0) (by simp [mEx, mgrU]) (by simp)
      (by norm_num [sdU, mEx, mgrU])
  · exact h.2.2.2.2
      (by intro p hp
          simp only [mEx, mgrU, List.mem_cons, List.not_mem_nil,
            or_false] at hp
          rcases hp with rfl | rfl <;> simp)
      ("keep", sdU 0) (by simp [mEx, mgrU])

/-! ## The analysis workflow (`app/core/rag_pipeline.py`)

The LLM (`ChatGroq`) is external: each node's `chain.invoke` is modelled as a
function from the prompt variables to `Except String String` — `Except.error`
is a raised exception (timeout, transport, quota), `Except.ok` the response
text.  Python's `json.loads` (standard library) is modelled as an abstract
`parse : String → Option Json`, `none` standing for `json.JSONDecodeError`. -/

/-- JSON values, the image of Python's `json.loads`. -/
inductive Json where
  | null
  | bool (b : Bool)
  | num (q : ℚ)
  | str (s : String)
  | arr (items : List Json)
  | obj (fields : List (String × Json))

/-- Python `==` between a JSON value and a string literal: only a JSON string
with the same contents compares equal. -/
def jeqStr : Json → String → Bool
  | Json.str s, t => s = t
  | _, _ => false

/-- Python `dict.get(k, default)` on a parsed JSON object. -/
def jsonGet (fields : List (String × Json)) (k : String) (d : Json) : Json :=
  match fields.find? (fun p => p.1 = k) with
  | some p => p.2
  | none => d

/-- Python `isinstance(item, dict)` on a JSON value. -/
def isObj : Json → Bool
  | Json.obj _ => true
  | _ => false

/-- A pandas `DataFrame` built from a JSON array of objects: the rows. -/
abbrev DataFrame := List (List (String × Json))

/-- `pd.DataFrame(json_data)` restricted to the guarded case (a list whose
items are all dicts). -/
def pdDataFrame (items : List Json) : DataFrame :=
  items.map (fun j => match j with | Json.obj fields => fields | _ => [])

/-- What `format_graph` hands to matplotlib: one of the three supported chart
kinds, or a blank figure (unknown `type`) carrying only the title.  Field
values stay raw JSON, exactly as the code passes them to the renderer. -/
inductive Chart where
  | bar (title x_label y_label categories values : Json)
  | line (title x_label y_label x y : Json)
  | pie (title labels values : Json)
  | blank (title : Json)

/-- The LangGraph `State` TypedDict; a key never written is `none`. -/
structure PipeState where
  question : String
  documents : Option (List String)
  answer : Option String
  table : Option DataFrame
  decision : Option String
  table_decision : Option String
  graph_decision : Option String
  graph_fig : Option Chart

/-- `agent.invoke({"question": q})`: every other channel unset. -/
def initState (q : String) : PipeState :=
  { question := q, documents := none, answer := none, table := none,
    decision := none, table_decision := none, graph_decision := none,
    graph_fig := none }

/-- `"\n\n".join(doc.page_content for doc in docs)`. -/
def joinDocs (docs : List String) : String := String.intercalate "\n\n" docs

/-- `"yes" in response.lower()` — Python's substring test after lowering.
`Char.toLower` matches `str.lower()` on the ASCII letters the test concerns. -/
def startsWithChars : List Char → List Char → Bool
  | [], _ => true
  | _ :: _, [] => false
  | a :: as, b :: bs => (a = b) && startsWithChars as bs

/-- Contiguous-substring test on character lists (Python `in` on `str`). -/
def hasSubstr (needle : List Char) : List Char → Bool
  | [] => startsWithChars needle []
  | c :: cs => startsWithChars needle (c :: cs) || hasSubstr needle cs

/-- The affirmative test every classifier node uses. -/
def containsYes (r : String) : Bool :=
  hasSubstr "yes".toList (r.toList.map Char.toLower)

/-- Node `retrieve`: `retriever.invoke(question)`, written into `documents`. -/
def retrieve (retriever : String → List String) (s : PipeState) : PipeState :=
  { s with documents := some (retriever s.question) }

/-- Node `grade_documents`: binary relevance check over the joined documents.
The `chain.invoke` call is not guarded, so an oracle error propagates.  The
graph wiring runs `retrieve` first, so `documents` is always set. -/
def grade_documents (oracle : String → String → Except String String)
    (s : PipeState) : Except String PipeState :=
  match oracle (joinDocs (s.documents.getD [])) s.question with
  | Except.error e => Except.error e
  | Except.ok response =>
    let d := if containsYes response then "generate" else "end"
    Except.ok { s with decision := some d }

/-- Node `generate`: free-text answer; an oracle error propagates. -/
def generate (oracle : String → String → Except String String)
    (s : PipeState) : Except String PipeState :=
  match oracle (joinDocs (s.documents.getD [])) s.question with
  | Except.error e => Except.error e
  | Except.ok answer => Except.ok { s with answer := some answer }

/-- Node `route_to_table`: table-routing classifier, unguarded invoke. -/
def route_to_table (oracle : String → String → Except String String)
    (s : PipeState) : Except String PipeState :=
  match oracle s.question (s.answer.getD "") with
  | Except.error e => Except.error e
  | Except.ok response =>
    let d := if containsYes response then "format_table" else "route_to_graph"
    Except.ok { s with table_decision := some d }

/-- Node `format_table`: the invoke itself is unguarded, but parsing and
`DataFrame` construction sit in `try… except: return {"table": None}`. -/
def format_table (parse : String → Option Json)
    (oracle : String → Except String String) (s : PipeState) :
    Except String PipeState :=
  match oracle (s.answer.getD "") with
  | Except.error e => Except.error e
  | Except.ok content =>
    match parse content with
    | none => Except.ok { s with table := none }
    | some j =>
      match j with
      | Json.arr items =>
        if items.all isObj then
          Except.ok { s with table := some (pdDataFrame items) }
        else Except.ok { s with table := none }
      | _ => Except.ok { s with table := none }

/-- Node `route_to_graph`: graph-routing classifier, unguarded invoke. -/
def route_to_graph (oracle : String → String → Except String String)
    (s : PipeState) : Except String PipeState :=
  match oracle s.question (s.answer.getD "") with
  | Except.error e => Except.error e
  | Except.ok response =>
    let d := if containsYes response then "format_graph" else "end"
    Except.ok { s with graph_decision := some d }

/-- The chart `format_graph` builds from a parsed JSON object.  `.get` on a
non-object raises and is caught by the node, handled there. -/
def chartOfFields (fields : List (String × Json)) : Chart :=
  let gtype := jsonGet fields "type" Json.null
  let title := jsonGet fields "title" (Json.str "")
  if jeqStr gtype "bar" then
    Chart.bar title (jsonGet fields "x_label" (Json.str ""))
      (jsonGet fields "y_label" (Json.str ""))
      (jsonGet fields "categories" (Json.arr []))
      (jsonGet fields "values" (Json.arr []))
  else if jeqStr gtype "line" then
    Chart.line title (jsonGet fields "x_label" (Json.str ""))
      (jsonGet fields "y_label" (Json.str ""))
      (jsonGet fields "x" (Json.arr []))
      (jsonGet fields "y" (Json.arr []))
  else if jeqStr gtype "pie" then
    Chart.pie title (jsonGet fields "labels" (Json.arr []))
      (jsonGet fields "values" (Json.arr []))
  else
    Chart.blank title

/-- Node `format_graph`: unguarded invoke; the `try` block sets `graph_fig`
to `None` when parsing fails, when `.get` raises on a non-object, or when the
matplotlib drawing call (`ax.bar` / `ax.plot` / `ax.pie`) raises on the chart
data (for example a bar shape mismatch) — `drawFails` models that behaviour
of the external renderer as a function of the chart data it is handed.  The
unknown-type branch performs no drawing call, so it cannot fail and always
returns the titled figure. -/
def format_graph (parse : String → Option Json) (drawFails : Chart → Bool)
    (oracle : String → String → Except String String) (s : PipeState) :
    Except String PipeState :=
  match oracle s.question (s.answer.getD "") with
  | Except.error e => Except.error e
  | Except.ok content =>
    match parse content with
    | some (Json.obj fields) =>
      match chartOfFields fields with
      | Chart.blank t => Except.ok { s with graph_fig := some (Chart.blank t) }
      | ch =>
        if drawFails ch then Except.ok { s with graph_fig := none }
        else Except.ok { s with graph_fig := some ch }
    | some _ => Except.ok { s with graph_fig := none }
    | none => Except.ok { s with graph_fig := none }

/-- The six LLM call sites of one compiled agent, in graph order. -/
structure Oracles where
  gradeO : String → String → Except String String
  genO : String → String → Except String String
  routeTableO : String → String → Except String String
  tableO : String → Except String String
  routeGraphO : String → String → Except String String
  graphO : String → String → Except String String

/-- The compiled LangGraph agent of `create_agent`: entry `retrieve`, then
`grade_documents` with a conditional edge on `decision` (default `"end"`),
`generate`, `route_to_table` with a conditional edge on `table_decision`
(default `"route_to_graph"`), unconditional `format_table → route_to_graph`,
and a conditional edge on `graph_decision` (default `"end"`) into
`format_graph → END`. -/
def runPipeline (retriever : String → List String) (o : Oracles)
    (parse : String → Option Json) (drawFails : Chart → Bool)
    (question : String) : Except String PipeState :=
  let s1 := retrieve retriever (initState question)
  match grade_documents o.gradeO s1 with
  | Except.error e => Except.error e
  | Except.ok s2 =>
    if s2.decision.getD "end" = "generate" then
      match generate o.genO s2 with
      | Except.error e => Except.error e
      | Except.ok s3 =>
        match route_to_table o.routeTableO s3 with
        | Except.error e => Except.error e
        | Except.ok s4 =>
          match (if s4.table_decision.getD "route_to_graph" = "format_table"
                 then format_table parse o.tableO s4
                 else Except.ok s4) with
          | Except.error e => Except.error e
          | Except.ok s5 =>
            match route_to_graph o.routeGraphO s5 with
            | Except.error e => Except.error e
            | Except.ok s6 =>
              if s6.graph_decision.getD "end" = "format_graph" then
                format_graph parse drawFails o.graphO s6
              else Except.ok s6
    else Except.ok s2

/-! ### Claims about the workflow classifiers -/

/-- C2 counterexample: an error raised by the oracle call in
`grade_documents` propagates out of the step and fails the whole invocation,
instead of being mapped to the stop decision. -/
theorem grade_documents_error_counterexample :
    runPipeline (fun _ => ["doc"])
      { gradeO := fun _ _ => Except.error "oracle timeout",
        genO := fun _ _ => Except.ok "",
        routeTableO := fun _ _ => Except.ok "",
        tableO := fun _ => Except.ok "",
        routeGraphO := fun _ _ => Except.ok "",
        graphO := fun _ _ => Except.ok "" }
      (fun _ => none) (fun _ => false) "q" = Except.error "oracle timeout" := rfl

/-- C2 (amended).  `grade_documents` maps every successful response containing
`yes` (case-insensitively) to continue and every other successful response to
stop; an error raised by the oracle call propagates out of the step rather
than being mapped to stop. -/
theorem grade_documents_classifier
    (oracle : String → String → Except String String) (s : PipeState) :
    (∀ r, oracle (joinDocs (s.documents.getD [])) s.question = Except.ok r →
      grade_documents oracle s =
        Except.ok { s with decision := some (if containsYes r then "generate" else "end") }) ∧
    (∀ e, oracle (joinDocs (s.documents.getD [])) s.question = Except.error e →
      grade_documents oracle s = Except.error e) := by
  constructor
  · intro r hr
    simp [grade_documents, hr]
  · intro e he
    simp [grade_documents, he]

/-- Concrete instantiation of the amended C2 on an affirmative response. -/
theorem grade_documents_classifier_witness :
    grade_documents (fun _ _ => Except.ok "Yes, they are")
        (retrieve (fun _ => ["d"]) (initState "q")) =
      Except.ok { retrieve (fun _ => ["d"]) (initState "q") with decision := some (if containsYes "Yes, they are" then "generate" else "end") } :=
  (grade_documents_classifier (fun _ _ => Except.ok "Yes, they are")
    (retrieve (fun _ => ["d"]) (initState "q"))).1 "Yes, they are" rfl

/-- C3 counterexample: an error raised by the oracle call in `route_to_table`
propagates and fails the invocation — discarding the answer already produced
by `generate` — instead of routing around formatting. -/
theorem route_to_table_error_counterexample :
    runPipeline (fun _ => ["doc"])
      { gradeO := fun _ _ => Except.ok "yes",
        genO := fun _ _ => Except.ok "the answer",
        routeTableO := fun _ _ => Except.error "oracle down",
        tableO := fun _ => Except.ok "",
        routeGraphO := fun _ _ => Except.ok "",
        graphO := fun _ _ => Except.ok "" }
      (fun _ => none) (fun _ => false) "q" = Except.error "oracle down" := rfl

/-- C3 (amended).  `route_to_table` and `route_to_graph` map every successful
non-affirmative response to the skip route and every affirmative one to the
format route; an error raised by either oracle call propagates out of the
step (failing the invocation) rather than routing to skip. -/
theorem route_classifiers_fail_open
    (oT oG : String → String → Except String String) (s : PipeState) :
    ((∀ r, oT s.question (s.answer.getD "") = Except.ok r →
        route_to_table oT s =
          Except.ok { s with table_decision := some (if containsYes r then "format_table" else "route_to_graph") }) ∧
     (∀ e, oT s.question (s.answer.getD "") = Except.error e →
        route_to_table oT s = Except.error e)) ∧
    ((∀ r, oG s.question (s.answer.getD "") = Except.ok r →
        route_to_graph oG s =
          Except.ok { s with graph_decision := some (if containsYes r then "format_graph" else "end") }) ∧
     (∀ e, oG s.question (s.answer.getD "") = Except.error e →
        route_to_graph oG s = Except.error e)) := by
  refine ⟨⟨?_, ?_⟩, ?_, ?_⟩
  · intro r hr
    simp [route_to_table, hr]
  · intro e he
    simp [route_to_table, he]
  · intro r hr
    simp [route_to_graph, hr]
  · intro e he
    simp [route_to_graph, he]

/-- Concrete instantiation of the amended C3 on a negative response. -/
theorem route_classifiers_fail_open_witness :
    route_to_table (fun _ _ => Except.ok "no")
        { initState "q" with answer := some "a" } =
      Except.ok { { initState "q" with answer := some "a" } with table_decision := some (if containsYes "no" then "format_table" else "route_to_graph") } :=
  (route_classifiers_fail_open (fun _ _ => Except.ok "no")
    (fun _ _ => Except.ok "no")
    { initState "q" with answer := some "a" }).1.1 "no" rfl

/-- The workflow state right after `route_to_table` has chosen `d`, for a
question whose retrieval returned `docs` and whose generated answer is `ans`:
the state the conditional edge out of `route_to_table` dispatches on. -/
def midState (question : String) (docs : List String) (ans d : String) :
    PipeState :=
  { question := question, documents := some docs, answer := some ans,
    table := none, decision := some "generate", table_decision := some d,
    graph_decision := none, graph_fig := none }

/-- C4.  When the table-formatting oracle's response does not parse as a JSON
array of objects, `format_table` stores `table = none` with the generated
answer untouched, and the invocation continues into `route_to_graph` exactly
as if formatting had succeeded — the failure never aborts the run. -/
theorem format_table_graceful_failure (retriever : String → List String)
    (o : Oracles) (parse : String → Option Json) (drawFails : Chart → Bool)
    (question r1 ans r2 c : String)
    (hgrade : o.gradeO (joinDocs (retriever question)) question = Except.ok r1)
    (hr1 : containsYes r1 = true)
    (hgen : o.genO (joinDocs (retriever question)) question = Except.ok ans)
    (hroute : o.routeTableO question ans = Except.ok r2)
    (hr2 : containsYes r2 = true)
    (htab : o.tableO ans = Except.ok c)
    (hbad : ∀ items, parse c = some (Json.arr items) → items.all isObj = false) :
    format_table parse o.tableO (midState question (retriever question) ans "format_table") = Except.ok { midState question (retriever question) ans "format_table" with table := none } ∧
    runPipeline retriever o parse drawFails question =
      (match route_to_graph o.routeGraphO { midState question (retriever question) ans "format_table" with table := none } with
       | Except.error e => Except.error e
       | Except.ok s6 =>
         if s6.graph_decision.getD "end" = "format_graph" then
           format_graph parse drawFails o.graphO s6
         else Except.ok s6) := by
  have h1 : format_table parse o.tableO (midState question (retriever question) ans "format_table") = Except.ok { midState question (retriever question) ans "format_table" with table := none } := by
    cases hp : parse c with
    | none => simp [format_table, midState, htab, hp]
    | some j =>
      cases j with
      | null => simp [format_table, midState, htab, hp]
      | bool b => simp [format_table, midState, htab, hp]
      | num q => simp [format_table, midState, htab, hp]
      | str t => simp [format_table, midState, htab, hp]
      | arr items => simp [format_table, midState, htab, hp, hbad items hp]
      | obj fields => simp [format_table, midState, htab, hp]
  refine ⟨h1, ?_⟩
  simp only [midState] at h1
  simp only [runPipeline, retrieve, initState, grade_documents, generate,
    route_to_table, midState]
  simp [hgrade, hr1, hgen, hroute, hr2, h1]

/-- C9.  When the chart oracle's response parses as a JSON object whose
`type` is none of `bar`, `line`, `pie`, `format_graph` still produces a
present chart — the blank figure carrying only the title — rather than an
absent one. -/
theorem format_graph_unknown_kind (parse : String → Option Json)
    (drawFails : Chart → Bool)
    (oracle : String → String → Except String String) (s : PipeState)
    (content : String) (fields : List (String × Json))
    (ho : oracle s.question (s.answer.getD "") = Except.ok content)
    (hp : parse content = some (Json.obj fields))
    (hbar : jeqStr (jsonGet fields "type" Json.null) "bar" = false)
    (hline : jeqStr (jsonGet fields "type" Json.null) "line" = false)
    (hpie : jeqStr (jsonGet fields "type" Json.null) "pie" = false) :
    format_graph parse drawFails oracle s =
      Except.ok { s with graph_fig := some (Chart.blank (jsonGet fields "title" (Json.str ""))) } := by
  have hch : chartOfFields fields =
      Chart.blank (jsonGet fields "title" (Json.str "")) := by
    simp [chartOfFields, hbar, hline, hpie]
  simp [format_graph, ho, hp, hch]

/-- Concrete unknown-kind instance: `type = "scatter"` yields the blank
chart with the title, not an absent chart — even under a renderer whose
drawing calls always fail, since this branch draws nothing. -/
theorem format_graph_unknown_kind_witness :
    format_graph
        (fun _ => some (Json.obj [("type", Json.str "scatter"), ("title", Json.str "T")]))
        (fun _ => true)
        (fun _ _ => Except.ok "spec")
        { initState "q" with answer := some "a" } =
      Except.ok { { initState "q" with answer := some "a" } with graph_fig := some (Chart.blank (jsonGet [("type", Json.str "scatter"), ("title", Json.str "T")] "title" (Json.str ""))) } :=
  format_graph_unknown_kind
    (fun _ => some (Json.obj [("type", Json.str "scatter"), ("title", Json.str "T")]))
    (fun _ => true)
    (fun _ _ => Except.ok "spec")
    { initState "q" with answer := some "a" } "spec"
    [("type", Json.str "scatter"), ("title", Json.str "T")]
    rfl rfl rfl rfl rfl

/-- Agent whose table-formatting oracle returns an unparsable payload. -/
def oBad : Oracles :=
  { gradeO := fun _ _ => Except.ok "yes",
    genO := fun _ _ => Except.ok "genans",
    routeTableO := fun _ _ => Except.ok "yes",
    tableO := fun _ => Except.ok "bad",
    routeGraphO := fun _ _ => Except.ok "no",
    graphO := fun _ _ => Except.ok "" }

/-- Concrete graceful-failure instance: unparsable table payload, answer kept,
graph routing still runs. -/
theorem format_table_graceful_failure_witness :
    format_table (fun _ => none) oBad.tableO (midState "q" ["d"] "genans" "format_table") = Except.ok { midState "q" ["d"] "genans" "format_table" with table := none } ∧
    runPipeline (fun _ => ["d"]) oBad (fun _ => none) (fun _ => false) "q" =
      (match route_to_graph oBad.routeGraphO { midState "q" ["d"] "genans" "format_table" with table := none } with
       | Except.error e => Except.error e
       | Except.ok s6 =>
         if s6.graph_decision.getD "end" = "format_graph" then
           format_graph (fun _ => none) (fun _ => false) oBad.graphO s6
         else Except.ok s6) :=
  format_table_graceful_failure (fun _ => ["d"]) oBad (fun _ => none)
    (fun _ => false) "q"
    "yes" "genans" "yes" "bad" rfl (by decide) rfl rfl (by decide) rfl
    (fun items h => nomatch h)

/-- `format_graph` on a successful invoke whose payload parses as an object,
when the renderer's drawing call does not raise on the resulting chart data
(vacuously so for the drawing-free blank branch): the chart is present. -/
theorem format_graph_ok (parse : String → Option Json)
    (drawFails : Chart → Bool)
    (oracle : String → String → Except String String) (s : PipeState)
    (content : String) (fields : List (String × Json))
    (ho : oracle s.question (s.answer.getD "") = Except.ok content)
    (hp : parse content = some (Json.obj fields))
    (hdraw : drawFails (chartOfFields fields) = false) :
    format_graph parse drawFails oracle s =
      Except.ok { s with graph_fig := some (chartOfFields fields) } := by
  cases hch : chartOfFields fields with
  | bar a b c d e =>
    rw [hch] at hdraw
    simp [format_graph, ho, hp, hch, hdraw]
  | line a b c d e =>
    rw [hch] at hdraw
    simp [format_graph, ho, hp, hch, hdraw]
  | pie a b c =>
    rw [hch] at hdraw
    simp [format_graph, ho, hp, hch, hdraw]
  | blank t =>
    simp [format_graph, ho, hp, hch]

/-- C5.  Branch coverage of the compiled graph: grading stop yields a result
with no answer, no table and no chart; continue with both skips yields the
answer only; continue with both formats — when the oracle payloads are
well-formed and the renderer's drawing call accepts the chart data — yields
answer, table and chart, the table computed from the generated answer `ans`
alone and the chart from `(question, ans)` with `ans` the generated answer —
never from the raw question in the answer slot. -/
theorem workflow_branch_coverage (retriever : String → List String)
    (o : Oracles) (parse : String → Option Json) (drawFails : Chart → Bool)
    (question : String) :
    (∀ r1, o.gradeO (joinDocs (retriever question)) question = Except.ok r1 →
      containsYes r1 = false →
      runPipeline retriever o parse drawFails question =
        Except.ok { question := question, documents := some (retriever question), answer := none, table := none, decision := some "end", table_decision := none, graph_decision := none, graph_fig := none }) ∧
    (∀ r1 ans r2 r3,
      o.gradeO (joinDocs (retriever question)) question = Except.ok r1 →
      containsYes r1 = true →
      o.genO (joinDocs (retriever question)) question = Except.ok ans →
      o.routeTableO question ans = Except.ok r2 →
      containsYes r2 = false →
      o.routeGraphO question ans = Except.ok r3 →
      containsYes r3 = false →
      runPipeline retriever o parse drawFails question =
        Except.ok { question := question, documents := some (retriever question), answer := some ans, table := none, decision := some "generate", table_decision := some "route_to_graph", graph_decision := some "end", graph_fig := none }) ∧
    (∀ r1 ans r2 tc items r3 gc fields,
      o.gradeO (joinDocs (retriever question)) question = Except.ok r1 →
      containsYes r1 = true →
      o.genO (joinDocs (retriever question)) question = Except.ok ans →
      o.routeTableO question ans = Except.ok r2 →
      containsYes r2 = true →
      o.tableO ans = Except.ok tc →
      parse tc = some (Json.arr items) →
      items.all isObj = true →
      o.routeGraphO question ans = Except.ok r3 →
      containsYes r3 = true →
      o.graphO question ans = Except.ok gc →
      parse gc = some (Json.obj fields) →
      drawFails (chartOfFields fields) = false →
      runPipeline retriever o parse drawFails question =
        Except.ok { question := question, documents := some (retriever question), answer := some ans, table := some (pdDataFrame items), decision := some "generate", table_decision := some "format_table", graph_decision := some "format_graph", graph_fig := some (chartOfFields fields) }) := by
  refine ⟨?_, ?_, ?_⟩
  · intro r1 hgrade hr1
    simp only [runPipeline, retrieve, initState, grade_documents]
    simp [hgrade, hr1]
  · intro r1 ans r2 r3 hgrade hr1 hgen hroute hr2 hrg hr3
    simp only [runPipeline, retrieve, initState, grade_documents, generate,
      route_to_table, route_to_graph]
    simp [hgrade, hr1, hgen, hroute, hr2, hrg, hr3]
  · intro r1 ans r2 tc items r3 gc fields hgrade hr1 hgen hroute hr2 htab
      hptab hall hrg hr3 hgraph hpg hdraw
    have hfg := format_graph_ok parse drawFails o.graphO
      { question := question, documents := some (retriever question), answer := some ans, table := some (pdDataFrame items), decision := some "generate", table_decision := some "format_table", graph_decision := some "format_graph", graph_fig := none }
      gc fields hgraph hpg hdraw
    simp only [runPipeline, retrieve, initState, grade_documents, generate,
      route_to_table, format_table, route_to_graph]
    simp [hgrade, hr1, hgen, hroute, hr2, htab, hptab, hall, hrg, hr3, hfg]

/-- Agent whose six oracles all answer affirmatively with parsable payloads. -/
def oEx : Oracles :=
  { gradeO := fun _ _ => Except.ok "yes",
    genO := fun _ _ => Except.ok "two rows",
    routeTableO := fun _ _ => Except.ok "yes",
    tableO := fun _ => Except.ok "TBL",
    routeGraphO := fun _ _ => Except.ok "yes",
    graphO := fun _ _ => Except.ok "GRF" }

/-- Parser fixture: `TBL` is a one-row array of objects, `GRF` a bar spec. -/
def parseEx : String → Option Json := fun s =>
  if s = "TBL" then some (Json.arr [Json.obj [("a", Json.str "1")]])
  else if s = "GRF" then some (Json.obj [("type", Json.str "bar"), ("title", Json.str "T")])
  else none

/-- Concrete both-formats run with a renderer that accepts the chart data:
answer, table and chart are all present. -/
theorem workflow_branch_coverage_witness :
    runPipeline (fun _ => ["d"]) oEx parseEx (fun _ => false) "q" =
      Except.ok { question := "q", documents := some ["d"], answer := some "two rows", table := some (pdDataFrame [Json.obj [("a", Json.str "1")]]), decision := some "generate", table_decision := some "format_table", graph_decision := some "format_graph", graph_fig := some (chartOfFields [("type", Json.str "bar"), ("title", Json.str "T")]) } :=
  (workflow_branch_coverage (fun _ => ["d"]) oEx parseEx (fun _ => false) "q").2.2
    "yes" "two rows" "yes" "TBL" [Json.obj [("a", Json.str "1")]] "yes" "GRF"
    [("type", Json.str "bar"), ("title", Json.str "T")]
    rfl (by decide) rfl rfl (by decide) rfl (by simp [parseEx]) rfl rfl
    (by decide) rfl (by simp [parseEx]) rfl

/-! ## The `analyze` endpoint (`app/routers/analyze.py`) -/

/-- The `AnalyzeResponse` schema fields the endpoint fills (the table rows are
`DataFrame.to_dict("records")`, identity on our row representation; the graph
is the base64 string produced by the external renderer). -/
structure AnalyzeResponse where
  answer : String
  table : Option DataFrame
  graph : Option String
  session_id : String

/-- `analyze_invoices`: resolve the session (404 when absent or expired),
invoke the agent (a raised error becomes 500), else build the success
response, defaulting a missing `answer` key to the fixed fallback text.
`encode` is `InvoiceRAGPipeline.matplotlib_to_base64`. -/
def analyze_invoices (mgr : SessionManager V A) (sid question : String)
    (t1 t2 : ℚ) (agentRun : String → Except String PipeState)
    (encode : Chart → String) : Except (Nat × String) AnalyzeResponse :=
  match (get_session mgr sid t1 t2).1 with
  | none => Except.error (404, "Session not found or expired")
  | some _ =>
    match agentRun question with
    | Except.error e => Except.error (500, "Error during analysis: " ++ e)
    | Except.ok st =>
      Except.ok { answer := st.answer.getD "No relevant information found.",
                  table := st.table,
                  graph := st.graph_fig.map encode,
                  session_id := sid }

/-- C8.  When grading stops the workflow, the endpoint still succeeds: the
response is `Except.ok` — the same success shape as a fully answered request —
with answer text exactly `"No relevant information found."`, no table and no
graph. -/
theorem analyze_no_answer_success (mgr : SessionManager V A)
    (sid : String) (t1 t2 : ℚ) (retriever : String → List String)
    (o : Oracles) (parse : String → Option Json) (drawFails : Chart → Bool)
    (encode : Chart → String) (question r1 : String)
    (hsess : ((get_session mgr sid t1 t2).1).isSome = true)
    (hgrade : o.gradeO (joinDocs (retriever question)) question = Except.ok r1)
    (hr1 : containsYes r1 = false) :
    analyze_invoices mgr sid question t1 t2 (runPipeline retriever o parse drawFails) encode =
      Except.ok { answer := "No relevant information found.", table := none, graph := none, session_id := sid } := by
  obtain ⟨sd, hsd⟩ := Option.isSome_iff_exists.mp hsess
  have hrun : runPipeline retriever o parse drawFails question =
      Except.ok { question := question, documents := some (retriever question), answer := none, table := none, decision := some "end", table_decision := none, graph_decision := none, graph_fig := none } := by
    simp only [runPipeline, retrieve, initState, grade_documents]
    simp [hgrade, hr1]
  simp [analyze_invoices, hsd, hrun]

/-- Concrete stopped-run endpoint call: HTTP success with the fallback text. -/
theorem analyze_no_answer_success_witness :
    analyze_invoices (mgrU [("s", sdU 0)] 10) "s" "q" 3 5
        (runPipeline (fun _ => ["d"])
          { gradeO := fun _ _ => Except.ok "no",
            genO := fun _ _ => Except.ok "",
            routeTableO := fun _ _ => Except.ok "",
            tableO := fun _ => Except.ok "",
            routeGraphO := fun _ _ => Except.ok "",
            graphO := fun _ _ => Except.ok "" }
          (fun _ => none) (fun _ => false))
        (fun _ => "") =
      Except.ok { answer := "No relevant information found.", table := none, graph := none, session_id := "s" } :=
  analyze_no_answer_success (mgrU [("s", sdU 0)] 10) "s" 3 5
    (fun _ => ["d"])
    { gradeO := fun _ _ => Except.ok "no",
      genO := fun _ _ => Except.ok "",
      routeTableO := fun _ _ => Except.ok "",
      tableO := fun _ => Except.ok "",
      routeGraphO := fun _ _ => Except.ok "",
      graphO := fun _ _ => Except.ok "" }
    (fun _ => none) (fun _ => false) (fun _ => "") "q" "no"
    (by norm_num [get_session, mgrU, sdU, dictGet]) rfl (by decide)

end InvoiceScanner
